import Mathlib

/-- Day index of an exchange-local timestamp given in seconds (source:
`datetime.date()`); one day is 86400 seconds. -/
def dayOf (t : Int) : Int := t.ediv 86400

/-- Second within the day (the time-of-day part of a `datetime`). -/
def secOfDay (t : Int) : Int := t.emod 86400

/-- Hour field of a timestamp (source: `datetime.hour`). -/
def hourOf (t : Int) : Int := (secOfDay t).ediv 3600

/-- Minute field of a timestamp (source: `datetime.minute`). -/
def minuteOf (t : Int) : Int := ((secOfDay t).emod 3600).ediv 60

/-- Python `datetime.weekday()`: Monday = 0.  Day 0 of this clock is a
Thursday (weekday 3), matching the Unix epoch. -/
def weekdayOf (t : Int) : Int := (dayOf t + 3).emod 7

/-- Numeric reading of `strftime("%H%M")`: hour and minute packed as one
decimal number.  Since the minute is below 60 < 100 this is injective in
the (hour, minute) pair, so equality of the rendered four-digit strings
coincides with equality of this number. -/
def hhmm (t : Int) : Int := hourOf t * 100 + minuteOf t

/-- Source: `self.market_open_hours = 9` in `ORBSTradingBot.__init__`. -/
def market_open_hours : Int := 9

/-- Source: `self.market_open_minute = 30`. -/
def market_open_minute : Int := 30

/-- Source: `self.market_close_hour = 16`. -/
def market_close_hour : Int := 16

/-- Source: `now.replace(hour=9, minute=30, second=0, microsecond=0)`,
the market-open instant of the day containing `now`. -/
def market_open_today (now : Int) : Int :=
  dayOf now * 86400 + market_open_hours * 3600 + market_open_minute * 60

/-- Source: `market_open_today + timedelta(minutes=self.orb_minutes)`. -/
def orbEndTime (now : Int) (orb_minutes : Int) : Int :=
  market_open_today now + orb_minutes * 60

/-- Source: `ORBSTradingBot.is_market_hours` — weekday below 5 and the
time of day inside `[09:30, 16:00]` inclusive. -/
def is_market_hours (now : Int) : Bool :=
  if 5 ≤ weekdayOf now then false
  else
    decide (market_open_hours * 3600 + market_open_minute * 60 ≤ secOfDay now) &&
    decide (secOfDay now ≤ market_close_hour * 3600)

/-- One OHLCV row of the provider DataFrame (columns Open, High, Low,
Close, Volume, indexed by a timezone-aware timestamp `ts`). -/
structure Candle where
  ts : Int
  open_ : Rat
  high : Rat
  low : Rat
  close : Rat
  volume : Rat
deriving DecidableEq, Repr

/-- A provider DataFrame as the range calculator sees it: its rows, plus
the facts it checks about the frame itself — whether the index is a
timezone-aware DatetimeIndex and whether the High / Low columns exist. -/
structure Frame where
  rows : List Candle
  tzAware : Bool
  hasHigh : Bool
  hasLow : Bool
deriving DecidableEq, Repr

/-- Source: the `ORBSLevel` dataclass. -/
structure ORBSLevel where
  symbol : String
  orb_high : Rat
  orb_low : Rat
  orb_width : Rat
  orb_start_time : Int
  orb_end_time : Int
deriving DecidableEq, Repr

/-- The bot construction arguments used by the core. -/
structure Config where
  symbols : List String
  orb_minutes : Int
  execution_timeframes : List String

/-- Source: `data[(data.index >= market_open_today) & (data.index <= orb_end_time)]`
— the rows inside the closed-closed opening-range window. -/
def orbWindowCandles (orb_minutes now : Int) (rows : List Candle) : List Candle :=
  rows.filter fun c =>
    decide (market_open_today now ≤ c.ts) && decide (c.ts ≤ orbEndTime now orb_minutes)

/-- Source: `orb_data["High"].max()` over a non-empty column. -/
def foldMaxHigh (c : Candle) (rest : List Candle) : Rat :=
  (rest.map Candle.high).foldl max c.high

/-- Source: `orb_data["Low"].min()` over a non-empty column. -/
def foldMinLow (c : Candle) (rest : List Candle) : Rat :=
  (rest.map Candle.low).foldl min c.low

/-- Source: `ORBSTradingBot.calculate_orbs_levels`.  The provider fetch is
abstracted into the `f : Frame` argument; `now` stands for `datetime.now()`.
Every failure path of the source returns `None`; nothing raises. -/
def calculate_orbs_levels (cfg : Config) (now : Int) (symbol : String)
    (f : Frame) : Option ORBSLevel :=
  if f.rows = [] then none
  else if f.tzAware = false then none
  else
    match orbWindowCandles cfg.orb_minutes now f.rows with
    | [] => none
    | c :: rest =>
      if f.hasHigh && f.hasLow then
        let orb_high := foldMaxHigh c rest
        let orb_low := foldMinLow c rest
        some { symbol := symbol
               orb_high := orb_high
               orb_low := orb_low
               orb_width := orb_high - orb_low
               orb_start_time := market_open_today now
               orb_end_time := orbEndTime now cfg.orb_minutes }
      else none

/-- The pair `(data.iloc[-2], data.index[-1] row)` — the last fully closed
candle and the most recent (possibly still forming) candle; `none` when
the frame has fewer than two rows (source guard `len(data) < 2`). -/
def lastTwo (l : List Candle) : Option (Candle × Candle) :=
  match l.reverse with
  | cur :: prev :: _ => some (prev, cur)
  | _ => none

/-- Source: `f"{symbol}_{timeframe}_{current_time.strftime('%H%M')}"`,
the deduplication key string. -/
def signalId (symbol timeframe : String) (t : Int) : String :=
  symbol ++ "_" ++ timeframe ++ "_" ++ toString (hhmm t)

/-- The mutable per-day fields of `ORBSTradingBot`:
`orbs_levels` (dict symbol to ORBSLevel, as an association list),
`active_signals` (set of fired keys, as a list with set membership),
the two one-shot alert flags, and `last_status_update_time`. -/
structure BotState where
  orbs_levels : List (String × ORBSLevel)
  active_signals : List String
  pre_market_notified_today : Bool
  market_open_notified_today : Bool
  last_status_update_time : Option Int
deriving DecidableEq, Repr

/-- Dict read `self.orbs_levels.get(symbol)` on the association list. -/
def lookupLevel : List (String × ORBSLevel) → String → Option ORBSLevel
  | [], _ => none
  | (k, v) :: t, s => if k = s then some v else lookupLevel t s

/-- Dict write `self.orbs_levels[symbol] = level` on the association list. -/
def dictInsert (k : String) (v : ORBSLevel) :
    List (String × ORBSLevel) → List (String × ORBSLevel)
  | [] => [(k, v)]
  | (k1, v1) :: t => if k1 = k then (k, v) :: t else (k1, v1) :: dictInsert k v t

/-- Source: `ORBSTradingBot.check_breakout`.  The provider fetch for
(symbol, timeframe) is abstracted into the `data` argument.  Returns the
breakout string together with the updated state (`active_signals` is the
only field the source mutates).  `current_candle` is bound by the source
but only its index timestamp is read, for the gate and the key. -/
def check_breakout (b : BotState) (symbol timeframe : String)
    (data : List Candle) : Option String × BotState :=
  match lookupLevel b.orbs_levels symbol with
  | none => (none, b)
  | some orbs =>
    match lastTwo data with
    | none => (none, b)
    | some (latest_candle, current_candle) =>
      if current_candle.ts ≤ orbs.orb_end_time then (none, b)
      else if signalId symbol timeframe current_candle.ts ∈ b.active_signals then
        (none, b)
      else if latest_candle.close > orbs.orb_high then
        (some "BULLISH",
         { b with active_signals :=
             signalId symbol timeframe current_candle.ts :: b.active_signals })
      else if latest_candle.close < orbs.orb_low then
        (some "BEARISH",
         { b with active_signals :=
             signalId symbol timeframe current_candle.ts :: b.active_signals })
      else (none, b)

/-- The dictionary returned by `generate_trade_signal` (its transient
`timestamp` field, `datetime.now()`, is outside the model). -/
structure TradeSignal where
  symbol : String
  signal_type : String
  breakout_type : String
  current_price : Rat
  orb_high : Rat
  orb_low : Rat
  timeframe : String
deriving DecidableEq, Repr

/-- The data interpolated into the notification text that
`generate_trade_signal` hands to `NotificationService.notify`; the
surrounding fixed prose and number formatting are elided. -/
structure SignalMessage where
  title : String
  symbol : String
  signal_type : String
  direction : String
  timeframe : String
  current_price : Rat
  orb_high : Rat
  orb_low : Rat
  orb_width : Rat
  entry_reason : String
deriving DecidableEq, Repr

/-- Source: `ORBSTradingBot.generate_trade_signal`.  The current-price
lookup is abstracted into the `current_price` argument.  Returns the
signal dictionary (or `none` when the price is unavailable) and the list
of notifications dispatched.  The source indexes `self.orbs_levels[symbol]`
directly; every caller guards membership first, and the impossible
missing-key path is modelled as a no-op. -/
def generate_trade_signal (b : BotState) (symbol breakout_type timeframe : String)
    (current_price : Option Rat) : Option TradeSignal × List SignalMessage :=
  match lookupLevel b.orbs_levels symbol with
  | none => (none, [])
  | some orbs =>
    match current_price with
    | none => (none, [])
    | some price =>
      let stc :=
        if breakout_type = "BULLISH" then
          ("CALL", "LONG", "Price broke above ORB high")
        else if breakout_type = "BEARISH" then
          ("PUT", "SHORT", "Price broke below ORB low")
        else ("UNKNOWN", "UNKNOWN", "Unknown breakout type")
      let signal_type := stc.1
      let msg : SignalMessage :=
        { title := symbol ++ " " ++ signal_type ++ " SIGNAL - ORBS Breakout"
          symbol := symbol
          signal_type := signal_type
          direction := stc.2.1
          timeframe := timeframe
          current_price := price
          orb_high := orbs.orb_high
          orb_low := orbs.orb_low
          orb_width := orbs.orb_width
          entry_reason := stc.2.2 }
      (some { symbol := symbol
              signal_type := signal_type
              breakout_type := breakout_type
              current_price := price
              orb_high := orbs.orb_high
              orb_low := orbs.orb_low
              timeframe := timeframe },
       [msg])

/-- The provider and clock inputs consumed during one scheduler tick:
`now` is `datetime.now()`, `frames` the 1-minute fetch used by the range
calculator, `scan_data` the per-timeframe fetch used by the detector, and
`price` the `get_current_price` lookup. -/
structure TickEnv where
  now : Int
  frames : String → Frame
  scan_data : String → String → List Candle
  price : String → Option Rat

/-- Source: `ORBSTradingBot.update_orbs_levels` — recompute the range for
every symbol, keeping only the truthy results. -/
def update_orbs_levels (cfg : Config) (env : TickEnv) :
    List String → BotState → BotState
  | [], b => b
  | sym :: syms, b =>
    match calculate_orbs_levels cfg env.now sym (env.frames sym) with
    | some r =>
        update_orbs_levels cfg env syms
          { b with orbs_levels := dictInsert sym r b.orbs_levels }
    | none => update_orbs_levels cfg env syms b

/-- The inner loop of `scan_orbs_levels` over execution timeframes for one
symbol: run the detector, and on a truthy breakout build the signal with
the post-detector state, appending it when the builder succeeds. -/
def scanTimeframes (cfg : Config) (env : TickEnv) (symbol : String) :
    List String → BotState → BotState × List TradeSignal
  | [], b => (b, [])
  | tf :: tfs, b =>
    let r := check_breakout b symbol tf (env.scan_data symbol tf)
    match r.1 with
    | none => scanTimeframes cfg env symbol tfs r.2
    | some bt =>
      let g := generate_trade_signal r.2 symbol bt tf (env.price symbol)
      let rest := scanTimeframes cfg env symbol tfs r.2
      match g.1 with
      | some sig => (rest.1, sig :: rest.2)
      | none => rest

/-- Source: `ORBSTradingBot.scan_orbs_levels` — symbols without a recorded
range are skipped with `continue`. -/
def scan_orbs_levels (cfg : Config) (env : TickEnv) :
    List String → BotState → BotState × List TradeSignal
  | [], b => (b, [])
  | sym :: syms, b =>
    if lookupLevel b.orbs_levels sym = none then scan_orbs_levels cfg env syms b
    else
      let r := scanTimeframes cfg env sym cfg.execution_timeframes b
      let rest := scan_orbs_levels cfg env syms r.1
      (rest.1, r.2 ++ rest.2)

/-- The scheduler loop state: the bot fields plus the two loop-local
variables `last_update_day` and `orbs_calculated_today` of `run`. -/
structure SchedState where
  bot : BotState
  last_update_day : Option Int
  orbs_calculated_today : Bool
deriving DecidableEq, Repr

/-- Source: `ORBSTradingBot.reset_daily_data` — clears the level dict, the
fired-signal set and the two alert flags (and nothing else). -/
def reset_daily_data (b : BotState) : BotState :=
  { b with orbs_levels := []
           active_signals := []
           pre_market_notified_today := false
           market_open_notified_today := false }

/-- The day-rollover fragment at the top of `run`:
`if last_update_day and current_day != last_update_day: reset_daily_data();
orbs_calculated_today = False`, followed by `last_update_day = current_day`. -/
def rollover (current_day : Int) (st : SchedState) : SchedState :=
  let st1 :=
    if st.last_update_day.isSome ∧ st.last_update_day ≠ some current_day then
      { st with bot := reset_daily_data st.bot, orbs_calculated_today := false }
    else st
  { st1 with last_update_day := some current_day }

/-- The closed-market branch of `run`: at exactly 09:00 fire the one-shot
pre-market alert, then sleep (the tick ends). -/
def preMarketPhase (now : Int) (b : BotState) : BotState :=
  if hourOf now = 9 ∧ minuteOf now = 0 ∧ b.pre_market_notified_today = false then
    { b with pre_market_notified_today := true }
  else b

/-- The 09:30 one-shot market-open alert of `run`. -/
def marketOpenPhase (now : Int) (b : BotState) : BotState :=
  if hourOf now = 9 ∧ minuteOf now = 30 ∧ b.market_open_notified_today = false then
    { b with market_open_notified_today := true }
  else b

/-- The once-per-day range computation of `run`: past the opening-range
end and not yet computed today, recompute all levels, mark the flag and
stamp `last_status_update_time` regardless of how many symbols succeeded. -/
def rangePhase (cfg : Config) (env : TickEnv) (st : SchedState) : SchedState :=
  if orbEndTime env.now cfg.orb_minutes ≤ env.now ∧ st.orbs_calculated_today = false then
    let b := update_orbs_levels cfg env cfg.symbols st.bot
    { st with bot := { b with last_status_update_time := some env.now }
              orbs_calculated_today := true }
  else st

/-- The coarse status-snapshot timer of `run` (interval 10 minutes = 600
seconds); the snapshot itself only logs. -/
def statusPhase (now : Int) (b : BotState) : BotState :=
  match b.last_status_update_time with
  | none => { b with last_status_update_time := some now }
  | some t => if now - t > 600 then { b with last_status_update_time := some now } else b

/-- The scanning block of `run`, guarded by
`orbs_calculated_today and self.orbs_levels`. -/
def scanPhase (cfg : Config) (env : TickEnv) (st : SchedState) :
    SchedState × List TradeSignal :=
  if st.orbs_calculated_today = true ∧ st.bot.orbs_levels ≠ [] then
    let b := statusPhase env.now st.bot
    let r := scan_orbs_levels cfg env cfg.symbols b
    ({ st with bot := r.1 }, r.2)
  else (st, [])

/-- One iteration of the `run` loop body (`should_run` and the sleeps live
outside the model): rollover, market-hours gate with pre-market alert,
market-open alert, once-per-day range computation, then scanning. -/
def tick (cfg : Config) (env : TickEnv) (st : SchedState) :
    SchedState × List TradeSignal :=
  let st1 := rollover (dayOf env.now) st
  if is_market_hours env.now = false then
    ({ st1 with bot := preMarketPhase env.now st1.bot }, [])
  else
    let st2 := { st1 with bot := marketOpenPhase env.now st1.bot }
    let st3 := rangePhase cfg env st2
    scanPhase cfg env st3

/-- A sample opening range on day 0 with a 30-minute window:
09:30 = 34200 s, range end 36000 s, band [100, 101]. -/
def sampleRange : ORBSLevel :=
  { symbol := "SPY", orb_high := 101, orb_low := 100, orb_width := 1
    orb_start_time := 34200, orb_end_time := 36000 }

/-- A bot state holding `sampleRange` for SPY and nothing fired. -/
def sampleState : BotState :=
  { orbs_levels := [("SPY", sampleRange)], active_signals := []
    pre_market_notified_today := false, market_open_notified_today := false
    last_status_update_time := none }

/-- Last closed candle at 09:59 (35940 s) closing at 102, above the band. -/
def cPrev : Candle :=
  { ts := 35940, open_ := 101, high := 103, low := 100, close := 102, volume := 0 }

/-- Most recent, still-forming candle at 10:01 (36060 s). -/
def cLast : Candle :=
  { ts := 36060, open_ := 102, high := 104, low := 101, close := 103, volume := 0 }

/-- The two-candle fetch: closed bullish candle then the forming candle. -/
def sampleData : List Candle := [cPrev, cLast]

/-- A one-symbol configuration with a 30-minute opening range. -/
def cfg0 : Config :=
  { symbols := ["SPY"], orb_minutes := 30, execution_timeframes := ["1m"] }

/-- One in-window 1-minute candle at 09:31 (34260 s). -/
def sampleCandle0 : Candle :=
  { ts := 34260, open_ := 100, high := 101, low := 100, close := 100, volume := 0 }

/-- A well-formed provider frame with a single opening-range candle. -/
def sampleFrame : Frame :=
  { rows := [sampleCandle0], tzAware := true, hasHigh := true, hasLow := true }

/-- A provider frame with no rows at all. -/
def emptyFrame : Frame :=
  { rows := [], tzAware := true, hasHigh := true, hasLow := true }

theorem le_foldl_max (l : List Rat) (a : Rat) : a ≤ l.foldl max a := by
  induction l generalizing a with
  | nil => exact le_refl a
  | cons x xs ih =>
    rw [List.foldl_cons]
    exact le_trans (le_max_left a x) (ih (max a x))

theorem le_foldl_max_of_mem (l : List Rat) (a x : Rat) (hx : x ∈ l) :
    x ≤ l.foldl max a := by
  induction l generalizing a with
  | nil => cases hx
  | cons y ys ih =>
    rw [List.foldl_cons]
    rcases List.mem_cons.mp hx with rfl | hx2
    · exact le_trans (le_max_right a x) (le_foldl_max ys (max a x))
    · exact ih (max a y) hx2

theorem foldl_max_mem (l : List Rat) (a : Rat) :
    l.foldl max a = a ∨ l.foldl max a ∈ l := by
  induction l generalizing a with
  | nil => exact Or.inl rfl
  | cons y ys ih =>
    rw [List.foldl_cons]
    rcases ih (max a y) with h | h
    · rcases max_choice a y with h2 | h2
      · exact Or.inl (by rw [h, h2])
      · exact Or.inr (by rw [h, h2]; exact List.mem_cons_self y ys)
    · exact Or.inr (List.mem_cons_of_mem y h)

theorem foldl_min_le (l : List Rat) (a : Rat) : l.foldl min a ≤ a := by
  induction l generalizing a with
  | nil => exact le_refl a
  | cons x xs ih =>
    rw [List.foldl_cons]
    exact le_trans (ih (min a x)) (min_le_left a x)

theorem foldl_min_le_of_mem (l : List Rat) (a x : Rat) (hx : x ∈ l) :
    l.foldl min a ≤ x := by
  induction l generalizing a with
  | nil => cases hx
  | cons y ys ih =>
    rw [List.foldl_cons]
    rcases List.mem_cons.mp hx with rfl | hx2
    · exact le_trans (foldl_min_le ys (min a x)) (min_le_right a x)
    · exact ih (min a y) hx2

theorem foldl_min_mem (l : List Rat) (a : Rat) :
    l.foldl min a = a ∨ l.foldl min a ∈ l := by
  induction l generalizing a with
  | nil => exact Or.inl rfl
  | cons y ys ih =>
    rw [List.foldl_cons]
    rcases ih (min a y) with h | h
    · rcases min_choice a y with h2 | h2
      · exact Or.inl (by rw [h, h2])
      · exact Or.inr (by rw [h, h2]; exact List.mem_cons_self y ys)
    · exact Or.inr (List.mem_cons_of_mem y h)

/-- C5: on a frame with a timezone-aware index, High and Low columns,
and at least one candle inside the closed-closed window
`[marketOpenTime, marketOpenTime + orbMinutes]`, the range calculator
succeeds, its high is the maximum of the filtered highs (an attained
upper bound), its low is the minimum of the filtered lows, its width is
high minus low, and whenever every filtered candle has `low <= high`
the range itself satisfies `low <= high`. -/
theorem calculate_orbs_levels_range_sound
    (cfg : Config) (now : Int) (sym : String) (f : Frame)
    (htz : f.tzAware = true) (hh : f.hasHigh = true) (hl : f.hasLow = true)
    (hne : orbWindowCandles cfg.orb_minutes now f.rows ≠ []) :
    ∃ r, calculate_orbs_levels cfg now sym f = some r
      ∧ (∀ c ∈ orbWindowCandles cfg.orb_minutes now f.rows,
           c.high ≤ r.orb_high ∧ r.orb_low ≤ c.low)
      ∧ r.orb_high ∈ (orbWindowCandles cfg.orb_minutes now f.rows).map Candle.high
      ∧ r.orb_low ∈ (orbWindowCandles cfg.orb_minutes now f.rows).map Candle.low
      ∧ r.orb_width = r.orb_high - r.orb_low
      ∧ ((∀ c ∈ orbWindowCandles cfg.orb_minutes now f.rows, c.low ≤ c.high) →
           r.orb_low ≤ r.orb_high) := by
  have hrows : ¬ f.rows = [] := by
    intro h0
    exact hne (by simp [orbWindowCandles, h0])
  cases hw : orbWindowCandles cfg.orb_minutes now f.rows with
  | nil => exact absurd hw hne
  | cons c rest =>
    have hcalc : calculate_orbs_levels cfg now sym f =
        some { symbol := sym
               orb_high := foldMaxHigh c rest
               orb_low := foldMinLow c rest
               orb_width := foldMaxHigh c rest - foldMinLow c rest
               orb_start_time := market_open_today now
               orb_end_time := orbEndTime now cfg.orb_minutes } := by
      simp only [calculate_orbs_levels]
      rw [if_neg hrows, if_neg (by simp [htz]), hw]
      simp [hh, hl]
    refine ⟨_, hcalc, ?_, ?_, ?_, rfl, ?_⟩
    · intro x hx
      rcases List.mem_cons.mp hx with rfl | hx2
      · exact ⟨le_foldl_max _ _, foldl_min_le _ _⟩
      · exact ⟨le_foldl_max_of_mem _ _ _ (List.mem_map_of_mem Candle.high hx2),
               foldl_min_le_of_mem _ _ _ (List.mem_map_of_mem Candle.low hx2)⟩
    · show foldMaxHigh c rest ∈ List.map Candle.high (c :: rest)
      rw [List.map_cons]
      rcases foldl_max_mem (rest.map Candle.high) c.high with h | h
      · exact h ▸ List.mem_cons_self _ _
      · exact List.mem_cons_of_mem _ h
    · show foldMinLow c rest ∈ List.map Candle.low (c :: rest)
      rw [List.map_cons]
      rcases foldl_min_mem (rest.map Candle.low) c.low with h | h
      · exact h ▸ List.mem_cons_self _ _
      · exact List.mem_cons_of_mem _ h
    · intro hsane
      exact le_trans (foldl_min_le _ _)
        (le_trans (hsane c (List.mem_cons_self c rest)) (le_foldl_max _ _))

/-- Witness for C5 at a concrete one-candle frame. -/
theorem calculate_orbs_levels_range_sound_witness :
    ∃ r, calculate_orbs_levels cfg0 36000 "SPY" sampleFrame = some r
      ∧ r.orb_width = r.orb_high - r.orb_low ∧ r.orb_low ≤ r.orb_high := by
  obtain ⟨r, h1, _, _, _, h5, h6⟩ :=
    calculate_orbs_levels_range_sound cfg0 36000 "SPY" sampleFrame
      (by decide) (by decide) (by decide) (by decide)
  exact ⟨r, h1, h5, h6 (by decide)⟩

/-- C6: the range calculator returns `none` — it never raises — whenever
the filtered window is empty (in particular for an empty candle set or
candles entirely outside the window) or a required column is missing. -/
theorem calculate_orbs_levels_absent
    (cfg : Config) (now : Int) (sym : String) (f : Frame)
    (h : orbWindowCandles cfg.orb_minutes now f.rows = []
         ∨ f.hasHigh = false ∨ f.hasLow = false) :
    calculate_orbs_levels cfg now sym f = none := by
  by_cases hrows : f.rows = []
  · simp [calculate_orbs_levels, hrows]
  · simp only [calculate_orbs_levels, if_neg hrows]
    by_cases htz : f.tzAware = false
    · rw [if_pos htz]
    · rw [if_neg htz]
      cases hw : orbWindowCandles cfg.orb_minutes now f.rows with
      | nil => rfl
      | cons c rest =>
        rcases h with h | h | h
        · rw [hw] at h; cases h
        · simp [h]
        · simp [h]

/-- Witness for C6: an empty candle set yields an absent range. -/
theorem calculate_orbs_levels_absent_witness :
    calculate_orbs_levels cfg0 36000 "SPY" emptyFrame = none :=
  calculate_orbs_levels_absent cfg0 36000 "SPY" emptyFrame (Or.inl (by decide))

/-- Normal form of the detector once all gates have passed: the level is
present, there are at least two candles, the most recent timestamp is
past the range end and the key is fresh. -/
theorem check_breakout_eval
    (b : BotState) (sym tf : String) (data : List Candle)
    (orbs : ORBSLevel) (latest current : Candle)
    (hlook : lookupLevel b.orbs_levels sym = some orbs)
    (hlt : lastTwo data = some (latest, current))
    (hgate : orbs.orb_end_time < current.ts)
    (hnew : signalId sym tf current.ts ∉ b.active_signals) :
    check_breakout b sym tf data =
      if latest.close > orbs.orb_high then
        (some "BULLISH",
         { b with active_signals := signalId sym tf current.ts :: b.active_signals })
      else if latest.close < orbs.orb_low then
        (some "BEARISH",
         { b with active_signals := signalId sym tf current.ts :: b.active_signals })
      else (none, b) := by
  simp only [check_breakout, hlook, hlt]
  rw [if_neg (not_le.mpr hgate), if_neg hnew]

/-- Inversion of a fired detector call: every `some` result comes through
the full gate chain and pushes exactly its own key. -/
theorem check_breakout_fired_inv
    (b b1 : BotState) (sym tf : String) (data : List Candle) (d : String)
    (h : check_breakout b sym tf data = (some d, b1)) :
    ∃ orbs latest current,
      lookupLevel b.orbs_levels sym = some orbs
      ∧ lastTwo data = some (latest, current)
      ∧ orbs.orb_end_time < current.ts
      ∧ signalId sym tf current.ts ∉ b.active_signals
      ∧ b1 = { b with active_signals :=
                 signalId sym tf current.ts :: b.active_signals } := by
  unfold check_breakout at h
  split at h
  · simp at h
  next orbs hl =>
    split at h
    · simp at h
    next latest current hlt =>
      split at h
      · simp at h
      next hgate =>
        split at h
        · simp at h
        next hnew =>
          split at h
          next hhi =>
            injection h with h1 h2
            exact ⟨orbs, latest, current, hl, hlt, not_le.mp hgate, hnew, h2.symm⟩
          next hhi =>
            split at h
            next hlo =>
              injection h with h1 h2
              exact ⟨orbs, latest, current, hl, hlt, not_le.mp hgate, hnew, h2.symm⟩
            next hlo => simp at h

/-- Every detector call either leaves the state unchanged with a `none`
result, or fires and pushes exactly the key of the most recent candle. -/
theorem check_breakout_cases
    (b : BotState) (sym tf : String) (data : List Candle) :
    check_breakout b sym tf data = (none, b)
    ∨ ∃ d latest current, lastTwo data = some (latest, current)
        ∧ check_breakout b sym tf data =
            (some d, { b with active_signals :=
                         signalId sym tf current.ts :: b.active_signals }) := by
  unfold check_breakout
  split
  · exact Or.inl rfl
  · split
    · exact Or.inl rfl
    next latest current hlt =>
      split
      · exact Or.inl rfl
      · split
        · exact Or.inl rfl
        · split
          · exact Or.inr ⟨"BULLISH", latest, current, hlt, rfl⟩
          · split
            · exact Or.inr ⟨"BEARISH", latest, current, hlt, rfl⟩
            · exact Or.inl rfl

/-- The state after the sample bullish fire: exactly the key built from
the most recent candle (10:01) has been recorded. -/
def sampleFiredState : BotState :=
  { sampleState with active_signals := [signalId "SPY" "1m" 36060] }

/-- A would-be bearish closed candle at 10:00 (36000 s) closing at 99. -/
def cPrev2 : Candle :=
  { ts := 36000, open_ := 99, high := 100, low := 98, close := 99, volume := 0 }

/-- A forming candle ten seconds later inside the same minute 10:01. -/
def cLast2 : Candle :=
  { ts := 36070, open_ := 99, high := 100, low := 98, close := 99, volume := 0 }

/-- A most recent candle exactly at the range end (36000 s), so the gate
fails. -/
def cAtEnd : Candle :=
  { ts := 36000, open_ := 101, high := 103, low := 100, close := 102, volume := 0 }

/-- C1 counterexample: a gate-passing two-candle fetch whose closed
candle sits in minute 09:59 while the most recent candle sits in minute
10:01.  The detector fires and records the key of the most recent candle,
which differs from the key built from the closed candle — refuting the
claim that the recorded key carries the closed candle timestamp. -/
theorem check_breakout_key_not_second_to_last :
    check_breakout sampleState "SPY" "1m" sampleData
      = (some "BULLISH",
         { sampleState with active_signals := [signalId "SPY" "1m" cLast.ts] })
    ∧ lastTwo sampleData = some (cPrev, cLast)
    ∧ sampleRange.orb_end_time < cLast.ts
    ∧ signalId "SPY" "1m" cLast.ts ≠ signalId "SPY" "1m" cPrev.ts := by
  refine ⟨by decide, by decide, by decide, by decide⟩

/-- C1 amended: for every breakout check that reaches the key stage, the
deduplication key recorded and looked up is
`(symbol, timeframe, minute of the LAST, most recent candle timestamp)` —
the in-progress candle of the fetch, not the evaluated second-to-last
candle. -/
theorem check_breakout_key_is_last_candle_minute
    (b : BotState) (sym tf : String) (data : List Candle)
    (orbs : ORBSLevel) (latest current : Candle)
    (hlook : lookupLevel b.orbs_levels sym = some orbs)
    (hlt : lastTwo data = some (latest, current))
    (hgate : orbs.orb_end_time < current.ts) :
    (signalId sym tf current.ts ∈ b.active_signals →
       check_breakout b sym tf data = (none, b))
    ∧ (∀ d b1, check_breakout b sym tf data = (some d, b1) →
         b1.active_signals = signalId sym tf current.ts :: b.active_signals) := by
  constructor
  · intro hmem
    simp only [check_breakout, hlook, hlt]
    rw [if_neg (not_le.mpr hgate), if_pos hmem]
  · intro d b1 h
    obtain ⟨orbs2, latest2, current2, hl2, hlt2, _, _, hb1⟩ :=
      check_breakout_fired_inv b b1 sym tf data d h
    rw [hlt] at hlt2
    injection hlt2 with hp
    injection hp with hp1 hp2
    rw [hb1, ← hp2]

/-- Witness for the amended C1: with the last-candle key already fired,
the repeated call is a no-op. -/
theorem check_breakout_key_is_last_candle_minute_witness :
    check_breakout sampleFiredState "SPY" "1m" sampleData
      = (none, sampleFiredState) :=
  (check_breakout_key_is_last_candle_minute sampleFiredState "SPY" "1m" sampleData
      sampleRange cPrev cLast (by decide) (by decide) (by decide)).1 (by decide)

/-- C2: with a computed (well-formed) range present, at least two candles,
the gate passed and a fresh key, the detector classifies the second-to-last
candle close against the range — Bullish exactly above the high, Bearish
exactly below the low, none exactly inside — and the price fields of the
most recent candle never influence the result. -/
theorem check_breakout_classifies_closed_candle
    (b : BotState) (sym tf : String) (data : List Candle)
    (orbs : ORBSLevel) (latest current : Candle)
    (hlook : lookupLevel b.orbs_levels sym = some orbs)
    (hwf : orbs.orb_low ≤ orbs.orb_high)
    (hlt : lastTwo data = some (latest, current))
    (hgate : orbs.orb_end_time < current.ts)
    (hnew : signalId sym tf current.ts ∉ b.active_signals) :
    ((check_breakout b sym tf data).1 = some "BULLISH" ↔ latest.close > orbs.orb_high)
    ∧ ((check_breakout b sym tf data).1 = some "BEARISH" ↔ latest.close < orbs.orb_low)
    ∧ ((check_breakout b sym tf data).1 = none ↔
         (orbs.orb_low ≤ latest.close ∧ latest.close ≤ orbs.orb_high))
    ∧ (∀ data2 current2, lastTwo data2 = some (latest, current2) →
         current2.ts = current.ts →
         check_breakout b sym tf data2 = check_breakout b sym tf data) := by
  have he := check_breakout_eval b sym tf data orbs latest current hlook hlt hgate hnew
  refine ⟨?_, ?_, ?_, ?_⟩
  · rw [he]
    by_cases h1 : latest.close > orbs.orb_high
    · rw [if_pos h1]; exact iff_of_true rfl h1
    · rw [if_neg h1]
      by_cases h2 : latest.close < orbs.orb_low
      · rw [if_pos h2]
        exact iff_of_false (by simp) h1
      · rw [if_neg h2]
        exact iff_of_false (by simp) h1
  · rw [he]
    by_cases h1 : latest.close > orbs.orb_high
    · rw [if_pos h1]
      refine iff_of_false (by simp) ?_
      exact not_lt.mpr (le_trans hwf (le_of_lt h1))
    · rw [if_neg h1]
      by_cases h2 : latest.close < orbs.orb_low
      · rw [if_pos h2]; exact iff_of_true rfl h2
      · rw [if_neg h2]; exact iff_of_false (by simp) h2
  · rw [he]
    by_cases h1 : latest.close > orbs.orb_high
    · rw [if_pos h1]
      exact iff_of_false (by simp) (fun hc => absurd h1 (not_lt.mpr hc.2))
    · rw [if_neg h1]
      by_cases h2 : latest.close < orbs.orb_low
      · rw [if_pos h2]
        exact iff_of_false (by simp) (fun hc => absurd h2 (not_lt.mpr hc.1))
      · rw [if_neg h2]
        exact iff_of_true rfl ⟨not_lt.mp h2, not_lt.mp h1⟩
  · intro data2 current2 hlt2 hts
    have hgate2 : orbs.orb_end_time < current2.ts := by rw [hts]; exact hgate
    have hnew2 : signalId sym tf current2.ts ∉ b.active_signals := by
      rw [hts]; exact hnew
    rw [check_breakout_eval b sym tf data2 orbs latest current2 hlook hlt2 hgate2 hnew2,
        he, hts]

/-- Witness for C2: the sample bullish close 101.5 above the 101 high. -/
theorem check_breakout_classifies_closed_candle_witness :
    (check_breakout sampleState "SPY" "1m" sampleData).1 = some "BULLISH" :=
  (check_breakout_classifies_closed_candle sampleState "SPY" "1m" sampleData
      sampleRange cPrev cLast (by decide) (by decide) (by decide) (by decide)
      (by decide)).1.mpr (by decide)

/-- The key a call would compute and test: the dedup identity of the
(symbol, timeframe, fetch) triple. -/
def callKey (sym tf : String) (data : List Candle) : Option String :=
  (lastTwo data).map fun p => signalId sym tf p.2.ts

/-- C3: once a call has fired for a key, every later call carrying the
same key against any state that still remembers the fired keys returns
`none` and leaves the state untouched — each distinct signal fires at
most once until the daily reset clears `active_signals`. -/
theorem check_breakout_fire_once
    (b b1 b2 : BotState) (sym tf : String) (data data2 : List Candle) (d : String)
    (hfirst : check_breakout b sym tf data = (some d, b1))
    (hsub : ∀ k, k ∈ b1.active_signals → k ∈ b2.active_signals)
    (hkey : callKey sym tf data2 = callKey sym tf data) :
    check_breakout b2 sym tf data2 = (none, b2) := by
  obtain ⟨orbs, latest, current, hl, hlt, hgate, hnew, hb1⟩ :=
    check_breakout_fired_inv b b1 sym tf data d hfirst
  have hmem : signalId sym tf current.ts ∈ b1.active_signals := by
    rw [hb1]; exact List.mem_cons_self _ _
  have hmem2 := hsub _ hmem
  cases hl2 : lookupLevel b2.orbs_levels sym with
  | none => simp [check_breakout, hl2]
  | some orbs2 =>
    cases hlt2 : lastTwo data2 with
    | none => simp [check_breakout, hl2, hlt2]
    | some p =>
      obtain ⟨latest2, current2⟩ := p
      have hk : signalId sym tf current2.ts = signalId sym tf current.ts := by
        rw [callKey, callKey, hlt, hlt2] at hkey
        simpa using hkey
      simp only [check_breakout, hl2, hlt2]
      by_cases hg : current2.ts ≤ orbs2.orb_end_time
      · rw [if_pos hg]
      · rw [if_neg hg, if_pos (by rw [hk]; exact hmem2)]

/-- Witness for C3: after the sample bullish fire, a same-minute fetch
whose closed candle would be bearish is silently deduplicated. -/
theorem check_breakout_fire_once_witness :
    check_breakout sampleFiredState "SPY" "1m" [cPrev2, cLast2]
      = (none, sampleFiredState) := by
  refine check_breakout_fire_once sampleState sampleFiredState sampleFiredState
      "SPY" "1m" sampleData [cPrev2, cLast2] "BULLISH" (by decide) ?_ (by decide)
  intro k hk
  exact hk

/-- C4: whenever the most recent candle timestamp is not strictly after
the range end, the detector returns `none` and the state is untouched —
no evaluation of the closed candle occurs. -/
theorem check_breakout_gate
    (b : BotState) (sym tf : String) (data : List Candle)
    (orbs : ORBSLevel) (latest current : Candle)
    (hlook : lookupLevel b.orbs_levels sym = some orbs)
    (hlt : lastTwo data = some (latest, current))
    (hts : current.ts ≤ orbs.orb_end_time) :
    check_breakout b sym tf data = (none, b) := by
  simp only [check_breakout, hlook, hlt]
  rw [if_pos hts]

/-- Witness for C4: a fetch whose most recent candle sits exactly at the
range end produces no signal even with a bullish closed candle. -/
theorem check_breakout_gate_witness :
    check_breakout sampleState "SPY" "1m" [cPrev, cAtEnd]
      = (none, sampleState) :=
  check_breakout_gate sampleState "SPY" "1m" [cPrev, cAtEnd]
    sampleRange cPrev cAtEnd (by decide) (by decide) (by decide)

/-- C9: the detector only ever mutates `active_signals`; on a `none`
result the whole state is returned unchanged, and on a fired result
exactly the one key of this call is pushed. -/
theorem check_breakout_frame
    (b : BotState) (sym tf : String) (data : List Candle) :
    ((check_breakout b sym tf data).2.orbs_levels = b.orbs_levels
      ∧ (check_breakout b sym tf data).2.pre_market_notified_today
          = b.pre_market_notified_today
      ∧ (check_breakout b sym tf data).2.market_open_notified_today
          = b.market_open_notified_today
      ∧ (check_breakout b sym tf data).2.last_status_update_time
          = b.last_status_update_time)
    ∧ ((check_breakout b sym tf data).1 = none →
         (check_breakout b sym tf data).2 = b)
    ∧ (∀ d, (check_breakout b sym tf data).1 = some d →
         ∃ latest current, lastTwo data = some (latest, current)
           ∧ (check_breakout b sym tf data).2.active_signals
               = signalId sym tf current.ts :: b.active_signals) := by
  rcases check_breakout_cases b sym tf data with h | ⟨d, latest, current, hlt, h⟩
  · rw [h]
    exact ⟨⟨rfl, rfl, rfl, rfl⟩, fun _ => rfl, fun d hd => by simp at hd⟩
  · rw [h]
    refine ⟨⟨rfl, rfl, rfl, rfl⟩, fun hc => by simp at hc, fun d2 hd2 => ?_⟩
    exact ⟨latest, current, hlt, rfl⟩

/-- Witness for C9 at the sample bullish fire. -/
theorem check_breakout_frame_witness :
    (check_breakout sampleState "SPY" "1m" sampleData).2.orbs_levels
        = sampleState.orbs_levels
    ∧ (check_breakout sampleState "SPY" "1m" sampleData).2.active_signals
        = signalId "SPY" "1m" cLast.ts :: sampleState.active_signals := by
  refine ⟨(check_breakout_frame sampleState "SPY" "1m" sampleData).1.1, ?_⟩
  obtain ⟨latest, current, hlt, hact⟩ :=
    (check_breakout_frame sampleState "SPY" "1m" sampleData).2.2 "BULLISH" (by decide)
  have h0 : lastTwo sampleData = some (cPrev, cLast) := by decide
  rw [h0] at hlt
  injection hlt with hp
  injection hp with hp1 hp2
  rw [hact, ← hp2]

/-- A scheduler state carrying yesterday in `last_update_day`, a recorded
range, and a stale status-snapshot timestamp. -/
def staleSched : SchedState :=
  { bot := { sampleState with last_status_update_time := some 100 }
    last_update_day := some 0
    orbs_calculated_today := true }

/-- C7 counterexample: the calendar day advances from 0 to 1, the rollover
runs (the level dict and signal set are indeed cleared and the flags
dropped), yet `last_status_update_time` keeps its old value — so not all
per-day fields are reset. -/
theorem rollover_keeps_status_time :
    staleSched.last_update_day = some 0
    ∧ (rollover 1 staleSched).bot.orbs_levels = []
    ∧ (rollover 1 staleSched).bot.active_signals = []
    ∧ (rollover 1 staleSched).orbs_calculated_today = false
    ∧ (rollover 1 staleSched).bot.last_status_update_time = some 100 := by
  refine ⟨rfl, by decide, by decide, by decide, by decide⟩

/-- C7 amended: when the scheduler observes a new calendar day it clears
the level dict, the fired-signal set, both alert flags and the
range-computed flag before any further work — but the status-snapshot
timestamp is left unchanged by the rollover (it is only overwritten when
ranges are next computed). -/
theorem rollover_clears_daily_state
    (st : SchedState) (day : Int)
    (h1 : st.last_update_day.isSome = true)
    (h2 : st.last_update_day ≠ some day) :
    (rollover day st).bot.orbs_levels = []
    ∧ (rollover day st).bot.active_signals = []
    ∧ (rollover day st).bot.pre_market_notified_today = false
    ∧ (rollover day st).bot.market_open_notified_today = false
    ∧ (rollover day st).orbs_calculated_today = false
    ∧ (rollover day st).bot.last_status_update_time
        = st.bot.last_status_update_time
    ∧ (rollover day st).last_update_day = some day := by
  unfold rollover reset_daily_data
  rw [if_pos ⟨h1, h2⟩]
  exact ⟨rfl, rfl, rfl, rfl, rfl, rfl, rfl⟩

/-- Witness for the amended C7 at the concrete stale state. -/
theorem rollover_clears_daily_state_witness :
    (rollover 1 staleSched).bot.pre_market_notified_today = false
    ∧ (rollover 1 staleSched).bot.last_status_update_time
        = staleSched.bot.last_status_update_time := by
  have h := rollover_clears_daily_state staleSched 1 (by decide) (by decide)
  exact ⟨h.2.2.1, h.2.2.2.2.2.1⟩

/-- C10: the signal builder never validates the breakout direction — any
direction outside BULLISH/BEARISH, with a price available, still builds
and dispatches an UNKNOWN-typed notification with entry reason
`Unknown breakout type`; only a missing current price returns without
dispatching. -/
theorem generate_trade_signal_unknown
    (b : BotState) (symbol timeframe breakout_type : String)
    (orbs : ORBSLevel) (price : Rat)
    (hlook : lookupLevel b.orbs_levels symbol = some orbs)
    (h1 : breakout_type ≠ "BULLISH") (h2 : breakout_type ≠ "BEARISH") :
    generate_trade_signal b symbol breakout_type timeframe (some price)
      = (some { symbol := symbol
                signal_type := "UNKNOWN"
                breakout_type := breakout_type
                current_price := price
                orb_high := orbs.orb_high
                orb_low := orbs.orb_low
                timeframe := timeframe },
         [{ title := symbol ++ " " ++ "UNKNOWN" ++ " SIGNAL - ORBS Breakout"
            symbol := symbol
            signal_type := "UNKNOWN"
            direction := "UNKNOWN"
            timeframe := timeframe
            current_price := price
            orb_high := orbs.orb_high
            orb_low := orbs.orb_low
            orb_width := orbs.orb_width
            entry_reason := "Unknown breakout type" }])
    ∧ generate_trade_signal b symbol breakout_type timeframe none = (none, []) := by
  constructor
  · simp only [generate_trade_signal, hlook]
    rw [if_neg h1, if_neg h2]
  · simp [generate_trade_signal, hlook]

/-- Witness for C10 with the direction string SIDEWAYS. -/
theorem generate_trade_signal_unknown_witness :
    generate_trade_signal sampleState "SPY" "SIDEWAYS" "1m" (some 100)
      = (some { symbol := "SPY"
                signal_type := "UNKNOWN"
                breakout_type := "SIDEWAYS"
                current_price := 100
                orb_high := sampleRange.orb_high
                orb_low := sampleRange.orb_low
                timeframe := "1m" },
         [{ title := "SPY" ++ " " ++ "UNKNOWN" ++ " SIGNAL - ORBS Breakout"
            symbol := "SPY"
            signal_type := "UNKNOWN"
            direction := "UNKNOWN"
            timeframe := "1m"
            current_price := 100
            orb_high := sampleRange.orb_high
            orb_low := sampleRange.orb_low
            orb_width := sampleRange.orb_width
            entry_reason := "Unknown breakout type" }])
    ∧ generate_trade_signal sampleState "SPY" "SIDEWAYS" "1m" none = (none, []) :=
  generate_trade_signal_unknown sampleState "SPY" "1m" "SIDEWAYS" sampleRange 100
    (by decide) (by decide) (by decide)

theorem check_breakout_orbs_invariant
    (b : BotState) (sym tf : String) (data : List Candle) :
    ((check_breakout b sym tf data).2).orbs_levels = b.orbs_levels := by
  rcases check_breakout_cases b sym tf data with h | ⟨d, latest, current, hlt, h⟩ <;>
    rw [h]

theorem scanTimeframes_orbs_invariant
    (cfg : Config) (env : TickEnv) (symbol : String) (tfs : List String)
    (b : BotState) :
    ((scanTimeframes cfg env symbol tfs b).1).orbs_levels = b.orbs_levels := by
  induction tfs generalizing b with
  | nil => rfl
  | cons tf tfs ih =>
    simp only [scanTimeframes]
    split
    · simp only [ih, check_breakout_orbs_invariant]
    · split <;> simp only [ih, check_breakout_orbs_invariant]

theorem scan_orbs_levels_orbs_invariant
    (cfg : Config) (env : TickEnv) (syms : List String) (b : BotState) :
    ((scan_orbs_levels cfg env syms b).1).orbs_levels = b.orbs_levels := by
  induction syms generalizing b with
  | nil => rfl
  | cons sym syms ih =>
    simp only [scan_orbs_levels]
    by_cases h : lookupLevel b.orbs_levels sym = none
    · rw [if_pos h]; exact ih b
    · rw [if_neg h, ih, scanTimeframes_orbs_invariant]

theorem scan_orbs_levels_skip
    (cfg : Config) (env : TickEnv) (sym : String) (b : BotState)
    (pre post : List String)
    (h : lookupLevel b.orbs_levels sym = none) :
    scan_orbs_levels cfg env (pre ++ sym :: post) b
      = scan_orbs_levels cfg env (pre ++ post) b := by
  induction pre generalizing b with
  | nil =>
    simp only [List.nil_append, scan_orbs_levels]
    rw [if_pos h]
  | cons s pre ih =>
    simp only [List.cons_append, scan_orbs_levels]
    by_cases hs : lookupLevel b.orbs_levels s = none
    · rw [if_pos hs, if_pos hs]
      exact ih b h
    · rw [if_neg hs, if_neg hs]
      have h2 : lookupLevel
          ((scanTimeframes cfg env s cfg.execution_timeframes b).1).orbs_levels
          sym = none := by
        rw [scanTimeframes_orbs_invariant]; exact h
      simp only [List.append_eq]
      rw [ih _ h2]

theorem lookupLevel_dictInsert
    (k : String) (v : ORBSLevel) (l : List (String × ORBSLevel)) (s : String) :
    lookupLevel (dictInsert k v l) s
      = if k = s then some v else lookupLevel l s := by
  induction l with
  | nil => simp only [dictInsert, lookupLevel]
  | cons p t ih =>
    obtain ⟨k1, v1⟩ := p
    simp only [dictInsert]
    by_cases h1 : k1 = k
    · subst h1
      rw [if_pos rfl]
      simp only [lookupLevel]
      by_cases h2 : k1 = s
      · rw [if_pos h2, if_pos h2]
      · rw [if_neg h2, if_neg h2, if_neg h2]
    · rw [if_neg h1]
      simp only [lookupLevel]
      by_cases h2 : k1 = s
      · rw [if_pos h2, if_pos h2, if_neg (fun hh => h1 (h2.trans hh.symm))]
      · rw [if_neg h2, if_neg h2, ih]

theorem lookupLevel_update_orbs_levels
    (cfg : Config) (env : TickEnv) (syms : List String) (b : BotState)
    (s : String) :
    lookupLevel ((update_orbs_levels cfg env syms b).orbs_levels) s
      = if s ∈ syms ∧ (calculate_orbs_levels cfg env.now s (env.frames s)).isSome = true
        then calculate_orbs_levels cfg env.now s (env.frames s)
        else lookupLevel b.orbs_levels s := by
  induction syms generalizing b with
  | nil =>
    simp only [update_orbs_levels]
    rw [if_neg (fun hc => List.not_mem_nil s hc.1)]
  | cons sym syms ih =>
    simp only [update_orbs_levels]
    cases hc : calculate_orbs_levels cfg env.now sym (env.frames sym) with
    | none =>
      rw [ih]
      by_cases hm : s ∈ syms ∧
          (calculate_orbs_levels cfg env.now s (env.frames s)).isSome = true
      · rw [if_pos hm, if_pos ⟨List.mem_cons_of_mem sym hm.1, hm.2⟩]
      · rw [if_neg hm, if_neg ?_]
        intro hc2
        rcases List.mem_cons.mp hc2.1 with rfl | hin
        · rw [hc] at hc2; exact absurd hc2.2 (by simp)
        · exact hm ⟨hin, hc2.2⟩
    | some r =>
      rw [ih]
      have hproj : ({ b with orbs_levels := dictInsert sym r b.orbs_levels } :
          BotState).orbs_levels = dictInsert sym r b.orbs_levels := rfl
      rw [hproj, lookupLevel_dictInsert]
      by_cases hm : s ∈ syms ∧
          (calculate_orbs_levels cfg env.now s (env.frames s)).isSome = true
      · rw [if_pos hm, if_pos ⟨List.mem_cons_of_mem sym hm.1, hm.2⟩]
      · rw [if_neg hm]
        by_cases hss : sym = s
        · subst hss
          rw [if_pos rfl, if_pos ⟨List.mem_cons_self _ _, by rw [hc]; rfl⟩, hc]
        · rw [if_neg hss, if_neg ?_]
          intro hc2
          rcases List.mem_cons.mp hc2.1 with rfl | hin
          · exact hss rfl
          · exact hm ⟨hin, hc2.2⟩

theorem marketOpenPhase_orbs (now : Int) (b : BotState) :
    (marketOpenPhase now b).orbs_levels = b.orbs_levels := by
  unfold marketOpenPhase
  split <;> rfl

theorem statusPhase_orbs (now : Int) (b : BotState) :
    (statusPhase now b).orbs_levels = b.orbs_levels := by
  unfold statusPhase
  split
  · rfl
  · split <;> rfl

theorem scanPhase_flag (cfg : Config) (env : TickEnv) (st : SchedState) :
    (scanPhase cfg env st).1.orbs_calculated_today = st.orbs_calculated_today := by
  unfold scanPhase
  split <;> rfl

theorem scanPhase_orbs (cfg : Config) (env : TickEnv) (st : SchedState) :
    (scanPhase cfg env st).1.bot.orbs_levels = st.bot.orbs_levels := by
  unfold scanPhase
  split
  · show ((scan_orbs_levels cfg env cfg.symbols
        (statusPhase env.now st.bot)).1).orbs_levels = st.bot.orbs_levels
    rw [scan_orbs_levels_orbs_invariant, statusPhase_orbs]
  · rfl

theorem rangePhase_flag_true (cfg : Config) (env : TickEnv) (st : SchedState)
    (h1 : orbEndTime env.now cfg.orb_minutes ≤ env.now)
    (h2 : st.orbs_calculated_today = false) :
    (rangePhase cfg env st).orbs_calculated_today = true := by
  unfold rangePhase
  rw [if_pos ⟨h1, h2⟩]

theorem rangePhase_orbs_eq (cfg : Config) (env : TickEnv) (st : SchedState)
    (h1 : orbEndTime env.now cfg.orb_minutes ≤ env.now)
    (h2 : st.orbs_calculated_today = false) :
    (rangePhase cfg env st).bot.orbs_levels
      = (update_orbs_levels cfg env cfg.symbols st.bot).orbs_levels := by
  unfold rangePhase
  rw [if_pos ⟨h1, h2⟩]

theorem tick_open_eq (cfg : Config) (env : TickEnv) (st : SchedState)
    (hmkt : is_market_hours env.now = true) :
    tick cfg env st = scanPhase cfg env (rangePhase cfg env
      { rollover (dayOf env.now) st with
          bot := marketOpenPhase env.now (rollover (dayOf env.now) st).bot }) := by
  simp only [tick]
  rw [hmkt, if_neg (by decide : ¬ (true = false))]

/-- C8: on a tick during market hours on an unchanged day, at or past the
range-end mark with the range not yet computed today (level dict still
empty), the scheduler recomputes the levels for every configured symbol —
recording exactly the successful results — and sets the range-computed
flag to true regardless of how many symbols failed; and on any scan,
a symbol without a recorded range is skipped entirely, the scan behaving
exactly as if it were absent from the symbol list. -/
theorem tick_first_range_scan
    (cfg : Config) (env : TickEnv) (st : SchedState)
    (hmkt : is_market_hours env.now = true)
    (hday : st.last_update_day = some (dayOf env.now))
    (hflag : st.orbs_calculated_today = false)
    (horb : orbEndTime env.now cfg.orb_minutes ≤ env.now)
    (hempty : st.bot.orbs_levels = []) :
    ((tick cfg env st).1.orbs_calculated_today = true
      ∧ ∀ s, lookupLevel ((tick cfg env st).1.bot.orbs_levels) s =
          if s ∈ cfg.symbols then calculate_orbs_levels cfg env.now s (env.frames s)
          else none)
    ∧ ∀ (b : BotState) (sym : String) (pre post : List String),
        lookupLevel b.orbs_levels sym = none →
        scan_orbs_levels cfg env (pre ++ sym :: post) b
          = scan_orbs_levels cfg env (pre ++ post) b := by
  have hroll : rollover (dayOf env.now) st = st := by
    unfold rollover
    rw [if_neg (fun hc => hc.2 (by rw [hday]))]
    rw [← hday]
  have hteq := tick_open_eq cfg env st hmkt
  rw [hroll] at hteq
  have hflag2 : ({ st with bot := marketOpenPhase env.now st.bot } :
      SchedState).orbs_calculated_today = false := hflag
  refine ⟨⟨?_, ?_⟩, fun b sym pre post h => scan_orbs_levels_skip cfg env sym b pre post h⟩
  · rw [hteq, scanPhase_flag]
    exact rangePhase_flag_true cfg env _ horb hflag2
  · intro s
    rw [hteq, scanPhase_orbs, rangePhase_orbs_eq cfg env _ horb hflag2,
        lookupLevel_update_orbs_levels]
    have hbase : lookupLevel ({ st with bot := marketOpenPhase env.now st.bot } :
        SchedState).bot.orbs_levels s = none := by
      show lookupLevel (marketOpenPhase env.now st.bot).orbs_levels s = none
      rw [marketOpenPhase_orbs, hempty]
      rfl
    by_cases hs : s ∈ cfg.symbols
    · rw [if_pos hs]
      by_cases hsome : (calculate_orbs_levels cfg env.now s (env.frames s)).isSome = true
      · rw [if_pos ⟨hs, hsome⟩]
      · rw [if_neg (fun hc => hsome hc.2), hbase]
        exact (Option.not_isSome_iff_eq_none.mp hsome).symm
    · rw [if_neg hs, if_neg (fun hc => hs hc.1)]
      exact hbase

/-- Witness for C8: one symbol, the 10:00 tick on day 0 with an empty
state computes and records the sample range and raises the flag. -/
def env0 : TickEnv :=
  { now := 36000
    frames := fun _ => sampleFrame
    scan_data := fun _ _ => []
    price := fun _ => none }

/-- The scheduler state at the first in-hours tick of day 0. -/
def st0 : SchedState :=
  { bot := { orbs_levels := [], active_signals := []
             pre_market_notified_today := false
             market_open_notified_today := true
             last_status_update_time := none }
    last_update_day := some 0
    orbs_calculated_today := false }

theorem tick_first_range_scan_witness :
    (tick cfg0 env0 st0).1.orbs_calculated_today = true
    ∧ lookupLevel ((tick cfg0 env0 st0).1.bot.orbs_levels) "SPY"
        = calculate_orbs_levels cfg0 36000 "SPY" sampleFrame := by
  have h := tick_first_range_scan cfg0 env0 st0 (by decide) (by decide) (by decide)
    (by decide) (by decide)
  refine ⟨h.1.1, ?_⟩
  rw [h.1.2 "SPY", if_pos (by decide)]
  rfl
